import Mathlib

/-!
# Verification of the CGT engine of the ASX portfolio tracker

Shallow embedding of `src/cgt_calculator.py` (class `CGTCalculator`):
tax-parcel lot tracking, FIFO/LIFO disposal matching, CGT discount rules,
tax-year mapping, and the annual aggregation with loss carry-forward.

Modelling conventions:
* Python `float` amounts (prices, cost bases, gains) are modelled as `ℚ`,
  so the algebraic structure of the computations is captured exactly.
* Python `int` share quantities are modelled as `ℤ`.
* Dates stored as ISO `YYYY-MM-DD` TEXT are modelled as `Date` records;
  SQL TEXT comparison of zero-padded ISO dates coincides with the numeric
  order of `dateKey`, and Python's `datetime` subtraction `.days` is the
  difference of `toordinal`, transcribed below from CPython's formula.
* The sqlite tables are modelled as Lean lists (`tax_parcels` in rowid
  order, `cgt_events`, `capital_losses`); single-row `UPDATE ... WHERE id`
  is a `List.map` guarded on the id, matching SQL semantics.
* A Python `raise` of `ValueError` is an `Except.error` result.  In the
  live path `calculate_cgt_for_sale`, the function closes the connection
  without `commit()` on failure, which rolls back the implicit sqlite
  transaction; the embedding therefore returns the *original* state on
  error there.  In the rebuild path `_calculate_cgt_for_historical_sale`
  the updates were issued on the caller's cursor inside the caller's
  ongoing transaction, so they survive the raised exception; the embedding
  returns the mutated parcel list even on error there.
-/

/-- A calendar date, as parsed by `datetime.strptime(date_str, '%Y-%m-%d')`. -/
structure Date where
  year : Nat
  month : Nat
  day : Nat
deriving DecidableEq, Repr

/-- Gregorian leap-year test, as in CPython's `datetime._is_leap`. -/
def isLeap (y : Nat) : Bool :=
  y % 4 == 0 && (y % 100 != 0 || y % 400 == 0)

/-- Days in the months strictly before month `m` of a common year
(CPython `datetime._DAYS_BEFORE_MONTH`). -/
def daysBeforeMonthCommon (m : Nat) : Nat :=
  match m with
  | 1 => 0
  | 2 => 31
  | 3 => 59
  | 4 => 90
  | 5 => 120
  | 6 => 151
  | 7 => 181
  | 8 => 212
  | 9 => 243
  | 10 => 273
  | 11 => 304
  | 12 => 334
  | _ => 0

/-- Days before January 1 of year `y`, counting from year 1
(CPython `datetime._days_before_year`). -/
def daysBeforeYear (y : Nat) : Nat :=
  365 * (y - 1) + (y - 1) / 4 - (y - 1) / 100 + (y - 1) / 400

/-- Proleptic-Gregorian ordinal of a date, with 0001-01-01 ↦ 1
(CPython `date.toordinal`). -/
def toordinal (d : Date) : Nat :=
  daysBeforeYear d.year + daysBeforeMonthCommon d.month +
    (if 2 < d.month ∧ isLeap d.year then 1 else 0) + d.day

/-- `(datetime.strptime(a) - datetime.strptime(b)).days` for two
`%Y-%m-%d` dates: the signed difference of their ordinals. -/
def dateDiffDays (a b : Date) : Int :=
  (toordinal a : Int) - (toordinal b : Int)

/-- Numeric key whose order coincides with lexicographic (i.e. SQL TEXT)
comparison of zero-padded `YYYY-MM-DD` strings. -/
def dateKey (d : Date) : Nat :=
  d.year * 10000 + d.month * 100 + d.day

/-- `CGTCalculator.get_tax_year`: Australian tax year label for a date. -/
def get_tax_year (d : Date) : String :=
  if 7 ≤ d.month then
    toString d.year ++ "-" ++ toString (d.year + 1)
  else
    toString (d.year - 1) ++ "-" ++ toString d.year

/-- One row of the `tax_parcels` table.  `quantity` is the original
acquired quantity; `cost_base` includes brokerage. -/
structure TaxParcel where
  id : Nat
  stock : String
  acquisition_date : Date
  quantity : Int
  remaining_quantity : Int
  cost_base : ℚ
  sold : Bool
deriving DecidableEq, Repr

/-- The dataclass `CGTEvent` (one disposal matched against one parcel). -/
structure CGTEvent where
  stock : String
  sale_date : Date
  quantity : Int
  sale_price : ℚ
  sale_total : ℚ
  cost_base : ℚ
  acquisition_date : Date
  capital_gain : ℚ
  discount_eligible : Bool
  discounted_gain : ℚ
  method : String
deriving DecidableEq, Repr

/-- A row of the `cgt_events` table: a `CGTEvent` tagged with its tax year. -/
structure StoredCGTEvent where
  tax_year : String
  event : CGTEvent
deriving DecidableEq, Repr

/-- A row of the `capital_losses` table (UNIQUE on `tax_year`). -/
structure CapitalLoss where
  tax_year : String
  loss_amount : ℚ
  remaining_loss : ℚ
  source : String
deriving DecidableEq, Repr

/-- The dataclass `CGTSummary` returned by `calculate_annual_cgt`. -/
structure CGTSummary where
  tax_year : String
  total_capital_gains : ℚ
  total_capital_losses : ℚ
  discount_eligible_gains : ℚ
  discounted_gains : ℚ
  net_capital_gain : ℚ
  carried_forward_losses : ℚ
deriving DecidableEq, Repr

/-- The persistent store owned by the CGT engine. -/
structure CGTState where
  tax_parcels : List TaxParcel
  cgt_events : List StoredCGTEvent
  capital_losses : List CapitalLoss
deriving DecidableEq, Repr

/-- The `ValueError`s raised by the disposal matchers. -/
inductive CGTError where
  | noParcelsFound
  | insufficientParcels
deriving DecidableEq, Repr

deriving instance DecidableEq for Except

/-- Ascending acquisition-date order (`ORDER BY acquisition_date ASC`). -/
def acqLE (a b : TaxParcel) : Prop :=
  dateKey a.acquisition_date ≤ dateKey b.acquisition_date

/-- Descending acquisition-date order (`ORDER BY acquisition_date DESC`). -/
def acqGE (a b : TaxParcel) : Prop :=
  dateKey b.acquisition_date ≤ dateKey a.acquisition_date

instance : DecidableRel acqLE := fun a b =>
  Nat.decLe (dateKey a.acquisition_date) (dateKey b.acquisition_date)

instance : DecidableRel acqGE := fun a b =>
  Nat.decLe (dateKey b.acquisition_date) (dateKey a.acquisition_date)

instance : IsTotal TaxParcel acqLE := ⟨fun _ _ => Nat.le_total _ _⟩

instance : IsTrans TaxParcel acqLE := ⟨fun _ _ _ h h2 => Nat.le_trans h h2⟩

instance : IsTotal TaxParcel acqGE := ⟨fun _ _ => Nat.le_total _ _⟩

instance : IsTrans TaxParcel acqGE := ⟨fun _ _ _ h h2 => Nat.le_trans h2 h⟩

/-- The WHERE clause of the parcel selection: same stock, positive
remaining quantity, and (rebuild path only, `dateFilter = some d`) the
`acquisition_date <= ?` condition. -/
def parcelPred (stock : String) (dateFilter : Option Date)
    (p : TaxParcel) : Bool :=
  p.stock == stock && decide (0 < p.remaining_quantity) &&
    (match dateFilter with
     | some d => decide (dateKey p.acquisition_date ≤ dateKey d)
     | none => true)

/-- The `SELECT ... FROM tax_parcels WHERE ... ORDER BY {order}` shared by
both matcher paths.  `dateFilter = some d` adds the rebuild path's
`acquisition_date <= ?` condition; the live path passes `none`.
The method dispatch mirrors the source: `FIFO` ascending, `LIFO`
descending, anything else ascending. -/
def eligibleParcels (ps : List TaxParcel) (stock : String)
    (dateFilter : Option Date) (method : String) : List TaxParcel :=
  if method = "LIFO" then
    List.insertionSort acqGE (ps.filter (parcelPred stock dateFilter))
  else
    List.insertionSort acqLE (ps.filter (parcelPred stock dateFilter))

/-- `UPDATE tax_parcels SET remaining_quantity = ?, sold = ? WHERE id = ?`
with `sold = (new_remaining == 0)`, as issued inside the matcher loop. -/
def updateParcel (ps : List TaxParcel) (pid : Nat) (newRem : Int) :
    List TaxParcel :=
  ps.map fun q =>
    if q.id = pid then
      { q with remaining_quantity := newRem, sold := newRem == 0 }
    else q

/-- The `for parcel in parcels:` loop shared verbatim by
`_calculate_cgt_for_historical_sale` and `calculate_cgt_for_sale`:
walks the fetched snapshot `eligible`, builds CGT events, issues the
per-parcel UPDATEs against the table `st`, and returns
(updated table, events, final `remaining_to_sell`).
The discount constants are `cgt_holding_period_days = 365` and
`cgt_discount_rate = 0.5` (the code computes `gain * (1 - 0.5)`). -/
def matchLoop (saleDate : Date) (salePrice : ℚ) (method : String) :
    List TaxParcel → List TaxParcel → Int →
      List TaxParcel × List CGTEvent × Int
  | [], st, rem => (st, [], rem)
  | p :: rest, st, rem =>
    if rem ≤ 0 then (st, [], rem)
    else
      let shares := min rem p.remaining_quantity
      let proportion : ℚ := (shares : ℚ) / (p.quantity : ℚ)
      let pcb : ℚ := p.cost_base * proportion
      let proceeds : ℚ := (shares : ℚ) * salePrice
      let gain : ℚ := proceeds - pcb
      let holding : Int := dateDiffDays saleDate p.acquisition_date
      let elig : Bool := decide (365 < holding)
      let dg : ℚ := if elig = true ∧ 0 < gain then gain * (1 - 1/2) else gain
      let ev : CGTEvent :=
        { stock := p.stock
          sale_date := saleDate
          quantity := shares
          sale_price := salePrice
          sale_total := proceeds
          cost_base := pcb
          acquisition_date := p.acquisition_date
          capital_gain := gain
          discount_eligible := elig
          discounted_gain := dg
          method := method }
      let st2 := updateParcel st p.id (p.remaining_quantity - shares)
      let res := matchLoop saleDate salePrice method rest st2 (rem - shares)
      (res.1, ev :: res.2.1, res.2.2)

/-- `CGTCalculator._calculate_cgt_for_historical_sale` (rebuild path):
selects parcels of the stock with remaining quantity and
`acquisition_date <= sale_date`, runs the matcher loop, and raises on
no parcels or insufficient quantity.  The per-parcel UPDATEs were issued
on the caller's cursor inside the rebuild transaction, so the mutated
parcel table is returned even when the insufficient-quantity error is
raised (the caller catches it and carries on). -/
def calculate_cgt_for_historical_sale (ps : List TaxParcel) (stock : String)
    (saleDate : Date) (quantity : Int) (salePrice : ℚ) (method : String) :
    List TaxParcel × Except CGTError (List CGTEvent) :=
  let parcels := eligibleParcels ps stock (some saleDate) method
  if parcels.isEmpty then
    (ps, Except.error CGTError.noParcelsFound)
  else
    let r := matchLoop saleDate salePrice method parcels ps quantity
    if 0 < r.2.2 then
      (r.1, Except.error CGTError.insufficientParcels)
    else
      (r.1, Except.ok r.2.1)

/-- `CGTCalculator.calculate_cgt_for_sale` (live path): selects parcels of
the stock with remaining quantity (no acquisition-date condition), runs
the matcher loop, inserts the events into `cgt_events` tagged with the
sale's tax year, and commits.  On either failure the code raises after
`conn.close()` without `conn.commit()`, which rolls back the implicit
sqlite transaction, so the committed state is unchanged: the embedding
returns the original state on error. -/
def calculate_cgt_for_sale (st : CGTState) (stock : String) (saleDate : Date)
    (quantity : Int) (salePrice : ℚ) (method : String) :
    CGTState × Except CGTError (List CGTEvent) :=
  let parcels := eligibleParcels st.tax_parcels stock none method
  if parcels.isEmpty then
    (st, Except.error CGTError.noParcelsFound)
  else
    let r := matchLoop saleDate salePrice method parcels st.tax_parcels quantity
    if 0 < r.2.2 then
      (st, Except.error CGTError.insufficientParcels)
    else
      let ty := get_tax_year saleDate
      ({ st with
          tax_parcels := r.1
          cgt_events := st.cgt_events ++ r.2.1.map fun e => ⟨ty, e⟩ },
       Except.ok r.2.1)

/-- Running totals of the event loop in `calculate_annual_cgt`:
(total_gains, total_losses, discount_eligible_gains, discounted_gains). -/
structure AggTotals where
  total_gains : ℚ
  total_losses : ℚ
  discount_eligible_gains : ℚ
  discounted_gains : ℚ
deriving DecidableEq, Repr

/-- One iteration of the `for capital_gain, is_discount_eligible,
discounted_gain in events:` loop of `calculate_annual_cgt`. -/
def aggStep (a : AggTotals) (e : StoredCGTEvent) : AggTotals :=
  if 0 < e.event.capital_gain then
    if e.event.discount_eligible then
      { a with
          total_gains := a.total_gains + e.event.capital_gain
          discount_eligible_gains :=
            a.discount_eligible_gains + e.event.capital_gain
          discounted_gains := a.discounted_gains + e.event.discounted_gain }
    else
      { a with
          total_gains := a.total_gains + e.event.capital_gain
          discounted_gains := a.discounted_gains + e.event.capital_gain }
  else
    { a with total_losses := a.total_losses + |e.event.capital_gain| }

/-- The event totals of `calculate_annual_cgt` over the year's events. -/
def aggregateEvents (evs : List StoredCGTEvent) : AggTotals :=
  evs.foldl aggStep ⟨0, 0, 0, 0⟩

/-- `SELECT SUM(remaining_loss) FROM capital_losses WHERE remaining_loss > 0`
(with SQL `NULL` on an empty selection read back as 0). -/
def carriedLossTotal (ls : List CapitalLoss) : ℚ :=
  ((ls.filter fun l => decide (0 < l.remaining_loss)).map
    CapitalLoss.remaining_loss).sum

/-- The current-year net of a tax year as computed by
`calculate_annual_cgt`: discounted gains minus current-year losses. -/
def currentYearNet (st : CGTState) (taxYear : String) : ℚ :=
  (aggregateEvents
    (st.cgt_events.filter fun e => e.tax_year == taxYear)).discounted_gains -
  (aggregateEvents
    (st.cgt_events.filter fun e => e.tax_year == taxYear)).total_losses

/-- `CGTCalculator.calculate_annual_cgt`: aggregates the year's events,
applies carried-forward losses (via the blanket
`UPDATE capital_losses SET remaining_loss = remaining_loss - used
WHERE remaining_loss > 0`), or records a new loss via
`INSERT OR REPLACE` keyed by the UNIQUE tax year, and returns the summary
(whose last field is `carried_losses - (used if net > 0 else 0)`). -/
def calculate_annual_cgt (st : CGTState) (taxYear : String) :
    CGTState × CGTSummary :=
  let agg := aggregateEvents (st.cgt_events.filter fun e => e.tax_year == taxYear)
  let carried := carriedLossTotal st.capital_losses
  let cyn := agg.discounted_gains - agg.total_losses
  if 0 < cyn then
    let net := max 0 (cyn - carried)
    let used := min carried cyn
    let losses2 :=
      if 0 < used then
        st.capital_losses.map fun l =>
          if 0 < l.remaining_loss then
            { l with remaining_loss := l.remaining_loss - used }
          else l
      else st.capital_losses
    ({ st with capital_losses := losses2 },
     ⟨taxYear, agg.total_gains, agg.total_losses, agg.discount_eligible_gains,
      agg.discounted_gains, net, carried - used⟩)
  else
    let losses2 :=
      if cyn < 0 then
        (st.capital_losses.filter fun l => l.tax_year != taxYear) ++
          [⟨taxYear, |cyn|, |cyn|, "Current Year"⟩]
      else st.capital_losses
    ({ st with capital_losses := losses2 },
     ⟨taxYear, agg.total_gains, agg.total_losses, agg.discount_eligible_gains,
      agg.discounted_gains, 0, carried⟩)

/-- Sum of `remaining_loss` over all `capital_losses` rows (the "total
outstanding carried-forward balance" of claim C4, rows of any sign). -/
def sumRemainingLoss (ls : List CapitalLoss) : ℚ :=
  (ls.map CapitalLoss.remaining_loss).sum

/-- Number of `capital_losses` rows with positive remaining loss. -/
def countPositiveLoss (ls : List CapitalLoss) : Nat :=
  (ls.filter fun l => decide (0 < l.remaining_loss)).length

/-- Transcribed from the spec's own words (§4.2 "Greedy allocation"), for
comparison with the code: "walk the ordered parcel list; from each,
consume `min(remaining_to_sell, parcel.remaining_quantity)` shares;
compute `proportion = shares_taken / parcel.original_quantity`;
`proportional_cost_base = parcel.cost_base × proportion`;
`capital_gain = shares_taken × sale_price − proportional_cost_base`.
Continue until `remaining_to_sell = 0` or parcels exhausted."
Returns the (shares_taken, proportional_cost_base, capital_gain) triples. -/
def specGreedyAllocation : List TaxParcel → Int → ℚ → List (Int × ℚ × ℚ)
  | [], _, _ => []
  | p :: rest, rem, price =>
    if rem = 0 then []
    else
      let shares := min rem p.remaining_quantity
      let costShare := p.cost_base * ((shares : ℚ) / (p.quantity : ℚ))
      (shares, costShare, (shares : ℚ) * price - costShare) ::
        specGreedyAllocation rest (rem - shares) price

/-- The (quantity, cost base, capital gain) fields of an event, projected
for comparison with `specGreedyAllocation`. -/
def eventAllocation (e : CGTEvent) : Int × ℚ × ℚ :=
  (e.quantity, e.cost_base, e.capital_gain)

/-- One Disposal Matcher invocation (either path) with its arguments. -/
inductive MatcherOp where
  | historical (stock : String) (saleDate : Date) (quantity : Int)
      (salePrice : ℚ) (method : String)
  | live (stock : String) (saleDate : Date) (quantity : Int)
      (salePrice : ℚ) (method : String)

/-- Effect of one matcher invocation on the persistent store (the rebuild
path only touches `tax_parcels`; its events are inserted by the caller). -/
def applyOp (st : CGTState) : MatcherOp → CGTState
  | MatcherOp.historical s d q pr m =>
    { st with
        tax_parcels := (calculate_cgt_for_historical_sale st.tax_parcels s d q pr m).1 }
  | MatcherOp.live s d q pr m => (calculate_cgt_for_sale st s d q pr m).1

/-- A sequence of Disposal Matcher invocations, in ledger order. -/
def runOps (st : CGTState) (ops : List MatcherOp) : CGTState :=
  ops.foldl applyOp st

/-- The per-parcel invariant of claim C6: `0 ≤ remaining ≤ original` and
the `sold` flag is set exactly when the parcel is exhausted. -/
def ParcelInv (p : TaxParcel) : Prop :=
  0 ≤ p.remaining_quantity ∧ p.remaining_quantity ≤ p.quantity ∧
    p.sold = decide (p.remaining_quantity = 0)

instance : DecidablePred ParcelInv := fun p => by
  unfold ParcelInv; infer_instance

/-- How one parcel record may evolve across matcher invocations: identity
fields are untouched, the remaining quantity never increases, and an
exhausted parcel (remaining = 0) is never drawn from again (its record is
left exactly as it was). -/
def ParcelEvolves (p q : TaxParcel) : Prop :=
  q.id = p.id ∧ q.stock = p.stock ∧
    q.acquisition_date = p.acquisition_date ∧ q.quantity = p.quantity ∧
    q.cost_base = p.cost_base ∧
    q.remaining_quantity ≤ p.remaining_quantity ∧
    (p.remaining_quantity = 0 → q = p)

/-- Effect of one pass of the matcher loop on one parcel record: either it
is untouched, or it was drawn from — identity fields kept, remaining
strictly decreased but kept non-negative, `sold` flag recomputed. -/
def StepEvolve (p q : TaxParcel) : Prop :=
  q = p ∨
    (q.id = p.id ∧ q.stock = p.stock ∧
      q.acquisition_date = p.acquisition_date ∧ q.quantity = p.quantity ∧
      q.cost_base = p.cost_base ∧
      0 ≤ q.remaining_quantity ∧
      q.remaining_quantity < p.remaining_quantity ∧
      q.sold = decide (q.remaining_quantity = 0))

/-- The events of the matcher loop account for exactly the decrease of
`remaining_to_sell`: their quantities sum to the requested quantity minus
the final remainder. -/
theorem matchLoop_sum (d : Date) (pr : ℚ) (m : String) :
    ∀ (E st : List TaxParcel) (q : Int),
      ((matchLoop d pr m E st q).2.1.map CGTEvent.quantity).sum
        = q - (matchLoop d pr m E st q).2.2
  | [], st, q => by simp [matchLoop]
  | p :: rest, st, q => by
    by_cases h : q ≤ 0
    · simp [matchLoop, h]
    · have ih := matchLoop_sum d pr m rest
        (updateParcel st p.id
          (p.remaining_quantity - min q p.remaining_quantity))
        (q - min q p.remaining_quantity)
      simp only [matchLoop, if_neg h, List.map_cons, List.sum_cons]
      omega

/-- A non-negative requested quantity never overshoots: the final
`remaining_to_sell` of the matcher loop stays non-negative. -/
theorem matchLoop_rem_nonneg (d : Date) (pr : ℚ) (m : String) :
    ∀ (E st : List TaxParcel) (q : Int), 0 ≤ q →
      0 ≤ (matchLoop d pr m E st q).2.2
  | [], _, q, hq => hq
  | p :: rest, st, q, hq => by
    by_cases h : q ≤ 0
    · simpa [matchLoop, h] using hq
    · have ih := matchLoop_rem_nonneg d pr m rest
        (updateParcel st p.id
          (p.remaining_quantity - min q p.remaining_quantity))
        (q - min q p.remaining_quantity) (by omega)
      simpa only [matchLoop, if_neg h] using ih

/-- C9: the Australian tax-year mapping — label is `"{Y}-{Y+1}"` for
months ≥ 7 and `"{Y-1}-{Y}"` otherwise, so 2024-06-30 falls in
"2023-2024" and 2024-07-01 in "2024-2025". -/
theorem claim_C9 :
    (∀ d : Date, 1 ≤ d.year →
      get_tax_year d =
        if 7 ≤ d.month then toString d.year ++ "-" ++ toString (d.year + 1)
        else toString (d.year - 1) ++ "-" ++ toString d.year)
    ∧ get_tax_year ⟨2024, 6, 30⟩ = "2023-2024"
    ∧ get_tax_year ⟨2024, 7, 1⟩ = "2024-2025" :=
  ⟨fun _ _ => rfl, by decide, by decide⟩

theorem claim_C9_witness :
    (1 : Nat) ≤ 2024 ∧
      get_tax_year ⟨2024, 12, 25⟩ =
        (if 7 ≤ (12 : Nat) then
          toString (2024 : Nat) ++ "-" ++ toString ((2024 : Nat) + 1)
        else toString ((2024 : Nat) - 1) ++ "-" ++ toString (2024 : Nat)) :=
  ⟨by decide, claim_C9.1 ⟨2024, 12, 25⟩ (by decide)⟩

/-- C5: atomicity of the live single-sale path — when
`calculate_cgt_for_sale` fails (no parcels, or insufficient quantity),
the committed store is exactly the store before the call: the sqlite
connection is closed without commit, rolling back every parcel UPDATE,
and no CGT event is inserted. -/
theorem claim_C5 (st : CGTState) (stock : String) (d : Date) (q : Int)
    (pr : ℚ) (m : String) (e : CGTError)
    (h : (calculate_cgt_for_sale st stock d q pr m).2 = Except.error e) :
    (calculate_cgt_for_sale st stock d q pr m).1 = st := by
  unfold calculate_cgt_for_sale at h ⊢
  by_cases h1 : (eligibleParcels st.tax_parcels stock none m).isEmpty
  · simp [h1]
  · by_cases h2 : 0 <
      (matchLoop d pr m (eligibleParcels st.tax_parcels stock none m)
        st.tax_parcels q).2.2
    · simp [h1, h2]
    · simp [h1, h2] at h

theorem claim_C5_witness :
    (calculate_cgt_for_sale
        ⟨[⟨1, "CBA", ⟨2025, 1, 1⟩, 10, 10, 100, false⟩], [], []⟩
        "CBA" ⟨2025, 6, 1⟩ 15 1 "FIFO").2
      = Except.error CGTError.insufficientParcels ∧
    (calculate_cgt_for_sale
        ⟨[⟨1, "CBA", ⟨2025, 1, 1⟩, 10, 10, 100, false⟩], [], []⟩
        "CBA" ⟨2025, 6, 1⟩ 15 1 "FIFO").1
      = ⟨[⟨1, "CBA", ⟨2025, 1, 1⟩, 10, 10, 100, false⟩], [], []⟩ :=
  ⟨by decide,
   claim_C5 ⟨[⟨1, "CBA", ⟨2025, 1, 1⟩, 10, 10, 100, false⟩], [], []⟩
     "CBA" ⟨2025, 6, 1⟩ 15 1 "FIFO" CGTError.insufficientParcels (by decide)⟩

/-- Unpacking a successful rebuild-path sale: the events are those of the
matcher loop over the date-filtered selection, and nothing was left
unsold. -/
theorem historical_ok (ps : List TaxParcel) (stock : String) (d : Date)
    (q : Int) (pr : ℚ) (m : String) (evs : List CGTEvent)
    (h : (calculate_cgt_for_historical_sale ps stock d q pr m).2
          = Except.ok evs) :
    evs = (matchLoop d pr m (eligibleParcels ps stock (some d) m) ps q).2.1 ∧
      ¬ 0 < (matchLoop d pr m (eligibleParcels ps stock (some d) m) ps q).2.2
    := by
  unfold calculate_cgt_for_historical_sale at h
  by_cases h1 : (eligibleParcels ps stock (some d) m).isEmpty
  · simp [h1] at h
  · by_cases h2 : 0 <
        (matchLoop d pr m (eligibleParcels ps stock (some d) m) ps q).2.2
    · simp [h1, h2] at h
    · simp [h1, h2] at h
      exact ⟨h.symm, h2⟩

/-- Unpacking a successful live-path sale: the events are those of the
matcher loop over the unfiltered selection, nothing was left unsold, and
the committed store holds the updated parcels and the appended events. -/
theorem live_ok (st : CGTState) (stock : String) (d : Date)
    (q : Int) (pr : ℚ) (m : String) (evs : List CGTEvent)
    (h : (calculate_cgt_for_sale st stock d q pr m).2 = Except.ok evs) :
    evs = (matchLoop d pr m (eligibleParcels st.tax_parcels stock none m)
            st.tax_parcels q).2.1 ∧
      ¬ 0 < (matchLoop d pr m (eligibleParcels st.tax_parcels stock none m)
              st.tax_parcels q).2.2 ∧
      (calculate_cgt_for_sale st stock d q pr m).1 =
        { st with
            tax_parcels :=
              (matchLoop d pr m (eligibleParcels st.tax_parcels stock none m)
                st.tax_parcels q).1
            cgt_events := st.cgt_events ++
              evs.map fun e => ⟨get_tax_year d, e⟩ } := by
  unfold calculate_cgt_for_sale at h ⊢
  by_cases h1 : (eligibleParcels st.tax_parcels stock none m).isEmpty
  · simp [h1] at h
  · by_cases h2 : 0 <
        (matchLoop d pr m (eligibleParcels st.tax_parcels stock none m)
          st.tax_parcels q).2.2
    · simp [h1, h2] at h
    · simp only [h1, h2] at h
      simp only [Bool.not_eq_true] at h1
      simp [h1, h2] at h
      refine ⟨h.symm, h2, ?_⟩
      simp [h1, h2, ← h]

/-- A fully matched loop (non-negative request, nothing left over)
produces events whose quantities sum to the requested quantity. -/
theorem matchLoop_ok_sum (d : Date) (pr : ℚ) (m : String)
    (E st : List TaxParcel) (q : Int) (hq : 0 ≤ q)
    (h : ¬ 0 < (matchLoop d pr m E st q).2.2) :
    ((matchLoop d pr m E st q).2.1.map CGTEvent.quantity).sum = q := by
  have h1 := matchLoop_sum d pr m E st q
  have h2 := matchLoop_rem_nonneg d pr m E st q hq
  omega

/-- C1: quantity conservation — a sale of quantity `Q ≥ 0` that completes
without error produces events whose quantities sum exactly to `Q`, in
both the rebuild path and the live single-sale path. -/
theorem claim_C1 (stock : String) (d : Date) (q : Int) (pr : ℚ)
    (m : String) (hq : 0 ≤ q) :
    (∀ (ps : List TaxParcel) (evs : List CGTEvent),
      (calculate_cgt_for_historical_sale ps stock d q pr m).2
          = Except.ok evs →
        (evs.map CGTEvent.quantity).sum = q)
    ∧ (∀ (st : CGTState) (evs : List CGTEvent),
      (calculate_cgt_for_sale st stock d q pr m).2 = Except.ok evs →
        (evs.map CGTEvent.quantity).sum = q) := by
  constructor
  · intro ps evs h
    obtain ⟨hevs, hrem⟩ := historical_ok ps stock d q pr m evs h
    rw [hevs]
    exact matchLoop_ok_sum d pr m _ _ q hq hrem
  · intro st evs h
    obtain ⟨hevs, hrem, _⟩ := live_ok st stock d q pr m evs h
    rw [hevs]
    exact matchLoop_ok_sum d pr m _ _ q hq hrem

theorem claim_C1_witness :
    (0 : Int) ≤ 80 ∧
      (([⟨"A", ⟨2024, 1, 1⟩, 50, 15, 750, 500, ⟨2022, 1, 1⟩, 250, true,
            125, "FIFO"⟩,
         (⟨"A", ⟨2024, 1, 1⟩, 30, 15, 450, 600, ⟨2023, 1, 1⟩, -150, false,
            -150, "FIFO"⟩ : CGTEvent)]).map CGTEvent.quantity).sum = 80 :=
  ⟨by decide,
   (claim_C1 "A" ⟨2024, 1, 1⟩ 80 15 "FIFO" (by decide)).2
     ⟨[⟨1, "A", ⟨2022, 1, 1⟩, 50, 50, 500, false⟩,
       ⟨2, "A", ⟨2023, 1, 1⟩, 50, 50, 1000, false⟩], [], []⟩
     [⟨"A", ⟨2024, 1, 1⟩, 50, 15, 750, 500, ⟨2022, 1, 1⟩, 250, true,
        125, "FIFO"⟩,
      ⟨"A", ⟨2024, 1, 1⟩, 30, 15, 450, 600, ⟨2023, 1, 1⟩, -150, false,
        -150, "FIFO"⟩]
     (by
       simp +decide only [calculate_cgt_for_sale, eligibleParcels, matchLoop,
         updateParcel, get_tax_year, dateDiffDays, toordinal, daysBeforeYear,
         daysBeforeMonthCommon, isLeap, dateKey, List.insertionSort,
         List.orderedInsert, acqLE, acqGE, List.filter]
       norm_num)⟩

/-- For a non-negative request, the matcher loop's events carry exactly
the (shares, proportional cost base, capital gain) triples prescribed by
the spec's greedy-allocation description. -/
theorem matchLoop_spec_alloc (d : Date) (pr : ℚ) (m : String) :
    ∀ (E st : List TaxParcel) (q : Int), 0 ≤ q →
      (matchLoop d pr m E st q).2.1.map eventAllocation
        = specGreedyAllocation E q pr
  | [], _, q, _ => by simp [matchLoop, specGreedyAllocation]
  | p :: rest, st, q, hq => by
    by_cases h : q ≤ 0
    · have hq0 : q = 0 := le_antisymm h hq
      subst hq0
      simp [matchLoop, specGreedyAllocation]
    · have hmin : min q p.remaining_quantity ≤ q := min_le_left _ _
      have ih := matchLoop_spec_alloc d pr m rest
        (updateParcel st p.id
          (p.remaining_quantity - min q p.remaining_quantity))
        (q - min q p.remaining_quantity) (by omega)
      simp only [matchLoop, specGreedyAllocation, if_neg h,
        if_neg (show ¬ q = 0 by omega), List.map_cons]
      exact List.cons_eq_cons.mpr ⟨rfl, ih⟩

/-- Every event of the matcher loop originates from a listed parcel and
satisfies the per-event discount and gain formulas of the source. -/
theorem matchLoop_event_fields (d : Date) (pr : ℚ) (m : String) :
    ∀ (E st : List TaxParcel) (q : Int) (ev : CGTEvent),
      ev ∈ (matchLoop d pr m E st q).2.1 →
      ∃ p ∈ E, ev.acquisition_date = p.acquisition_date ∧
        ev.discount_eligible
          = decide (365 < dateDiffDays d p.acquisition_date) ∧
        ev.capital_gain = (ev.quantity : ℚ) * pr - ev.cost_base ∧
        ev.discounted_gain =
          (if ev.discount_eligible = true ∧ 0 < ev.capital_gain
           then ev.capital_gain * (1 - 1/2) else ev.capital_gain)
  | [], _, q, ev, h => by simp [matchLoop] at h
  | p :: rest, st, q, ev, h => by
    by_cases hq : q ≤ 0
    · simp [matchLoop, hq] at h
    · simp only [matchLoop, if_neg hq, List.mem_cons] at h
      rcases h with h | h
      · subst h
        exact ⟨p, List.mem_cons_self _ _, rfl, rfl, rfl, rfl⟩
      · obtain ⟨p2, hp2, hrest⟩ := matchLoop_event_fields d pr m rest
          (updateParcel st p.id
            (p.remaining_quantity - min q p.remaining_quantity))
          (q - min q p.remaining_quantity) ev h
        exact ⟨p2, List.mem_cons_of_mem _ hp2, hrest⟩

/-- C2: the Disposal Matcher walks the eligible parcels ordered by
acquisition date — ascending for FIFO, descending for LIFO, and FIFO
ordering for any other method value — and its events realise exactly the
spec's greedy allocation: from each parcel
`min(remaining_to_sell, parcel.remaining_quantity)` shares, proportional
cost base `parcel.cost_base × (shares / parcel.original_quantity)`,
capital gain `shares × sale_price − proportional_cost_base`, stopping
when `remaining_to_sell` reaches 0. -/
theorem claim_C2 (ps st : List TaxParcel) (stock method : String)
    (df : Option Date) (d : Date) (pr : ℚ) (q : Int) (hq : 0 ≤ q) :
    List.Sorted acqLE (eligibleParcels ps stock df "FIFO")
    ∧ List.Sorted acqGE (eligibleParcels ps stock df "LIFO")
    ∧ (method ≠ "LIFO" →
        eligibleParcels ps stock df method
          = eligibleParcels ps stock df "FIFO")
    ∧ (matchLoop d pr method (eligibleParcels ps stock df method)
        st q).2.1.map eventAllocation
        = specGreedyAllocation (eligibleParcels ps stock df method) q pr := by
  refine ⟨?_, ?_, ?_, matchLoop_spec_alloc d pr method _ st q hq⟩
  · simp only [eligibleParcels, if_neg (by decide : ¬ ("FIFO" = "LIFO"))]
    exact List.sorted_insertionSort acqLE _
  · simp only [eligibleParcels, if_pos rfl]
    exact List.sorted_insertionSort acqGE _
  · intro hm
    simp only [eligibleParcels, if_neg hm,
      if_neg (by decide : ¬ ("FIFO" = "LIFO"))]

theorem claim_C2_witness :
    (0 : Int) ≤ 80 ∧
      (List.Sorted acqLE (eligibleParcels
          [⟨1, "A", ⟨2022, 1, 1⟩, 50, 50, 500, false⟩,
           ⟨2, "A", ⟨2023, 1, 1⟩, 50, 50, 1000, false⟩] "A" none "FIFO")
      ∧ List.Sorted acqGE (eligibleParcels
          [⟨1, "A", ⟨2022, 1, 1⟩, 50, 50, 500, false⟩,
           ⟨2, "A", ⟨2023, 1, 1⟩, 50, 50, 1000, false⟩] "A" none "LIFO")
      ∧ ("Specific" ≠ "LIFO" →
          eligibleParcels
            [⟨1, "A", ⟨2022, 1, 1⟩, 50, 50, 500, false⟩,
             ⟨2, "A", ⟨2023, 1, 1⟩, 50, 50, 1000, false⟩] "A" none "Specific"
            = eligibleParcels
              [⟨1, "A", ⟨2022, 1, 1⟩, 50, 50, 500, false⟩,
               ⟨2, "A", ⟨2023, 1, 1⟩, 50, 50, 1000, false⟩] "A" none "FIFO")
      ∧ (matchLoop ⟨2024, 1, 1⟩ 15 "Specific"
          (eligibleParcels
            [⟨1, "A", ⟨2022, 1, 1⟩, 50, 50, 500, false⟩,
             ⟨2, "A", ⟨2023, 1, 1⟩, 50, 50, 1000, false⟩] "A" none "Specific")
          [⟨1, "A", ⟨2022, 1, 1⟩, 50, 50, 500, false⟩,
           ⟨2, "A", ⟨2023, 1, 1⟩, 50, 50, 1000, false⟩] 80).2.1.map
            eventAllocation
          = specGreedyAllocation
            (eligibleParcels
              [⟨1, "A", ⟨2022, 1, 1⟩, 50, 50, 500, false⟩,
               ⟨2, "A", ⟨2023, 1, 1⟩, 50, 50, 1000, false⟩] "A" none
              "Specific") 80 15) :=
  ⟨by decide,
   claim_C2 [⟨1, "A", ⟨2022, 1, 1⟩, 50, 50, 500, false⟩,
       ⟨2, "A", ⟨2023, 1, 1⟩, 50, 50, 1000, false⟩]
     [⟨1, "A", ⟨2022, 1, 1⟩, 50, 50, 500, false⟩,
      ⟨2, "A", ⟨2023, 1, 1⟩, 50, 50, 1000, false⟩]
     "A" "Specific" none ⟨2024, 1, 1⟩ 15 80 (by decide)⟩

/-- C3: for every CGTEvent produced (by either path), the
`discount_eligible` flag is set iff the calendar-day difference between
sale date and the source parcel's acquisition date (as carried on the
event) is strictly greater than 365, and `discounted_gain` is
`capital_gain × 0.5` exactly when the flag is set and the gain is
positive, else `capital_gain` unchanged. -/
theorem claim_C3 (stock : String) (d : Date) (q : Int) (pr : ℚ)
    (m : String) :
    (∀ (ps : List TaxParcel) (evs : List CGTEvent) (ev : CGTEvent),
      (calculate_cgt_for_historical_sale ps stock d q pr m).2
          = Except.ok evs →
      ev ∈ evs →
      ev.discount_eligible
          = decide (365 < dateDiffDays d ev.acquisition_date) ∧
        ev.discounted_gain =
          (if ev.discount_eligible = true ∧ 0 < ev.capital_gain
           then ev.capital_gain * (1/2) else ev.capital_gain))
    ∧ (∀ (st : CGTState) (evs : List CGTEvent) (ev : CGTEvent),
      (calculate_cgt_for_sale st stock d q pr m).2 = Except.ok evs →
      ev ∈ evs →
      ev.discount_eligible
          = decide (365 < dateDiffDays d ev.acquisition_date) ∧
        ev.discounted_gain =
          (if ev.discount_eligible = true ∧ 0 < ev.capital_gain
           then ev.capital_gain * (1/2) else ev.capital_gain)) := by
  have half : (1 - 1/2 : ℚ) = 1/2 := by norm_num
  constructor
  · intro ps evs ev hok hmem
    obtain ⟨hevs, _⟩ := historical_ok ps stock d q pr m evs hok
    rw [hevs] at hmem
    obtain ⟨p, _, hacq, helig, _, hdg⟩ :=
      matchLoop_event_fields d pr m _ ps q ev hmem
    exact ⟨hacq ▸ helig, half ▸ hdg⟩
  · intro st evs ev hok hmem
    obtain ⟨hevs, _, _⟩ := live_ok st stock d q pr m evs hok
    rw [hevs] at hmem
    obtain ⟨p, _, hacq, helig, _, hdg⟩ :=
      matchLoop_event_fields d pr m _ st.tax_parcels q ev hmem
    exact ⟨hacq ▸ helig, half ▸ hdg⟩

theorem claim_C3_witness :
    (⟨"A", ⟨2024, 1, 1⟩, 50, 15, 750, 500, ⟨2022, 1, 1⟩, 250, true, 125,
        "FIFO"⟩ : CGTEvent).discount_eligible
      = decide (365 < dateDiffDays ⟨2024, 1, 1⟩
          (⟨"A", ⟨2024, 1, 1⟩, 50, 15, 750, 500, ⟨2022, 1, 1⟩, 250, true,
            125, "FIFO"⟩ : CGTEvent).acquisition_date) ∧
    (⟨"A", ⟨2024, 1, 1⟩, 50, 15, 750, 500, ⟨2022, 1, 1⟩, 250, true, 125,
        "FIFO"⟩ : CGTEvent).discounted_gain =
      (if (⟨"A", ⟨2024, 1, 1⟩, 50, 15, 750, 500, ⟨2022, 1, 1⟩, 250, true,
            125, "FIFO"⟩ : CGTEvent).discount_eligible = true ∧
          0 < (⟨"A", ⟨2024, 1, 1⟩, 50, 15, 750, 500, ⟨2022, 1, 1⟩, 250,
            true, 125, "FIFO"⟩ : CGTEvent).capital_gain
       then (⟨"A", ⟨2024, 1, 1⟩, 50, 15, 750, 500, ⟨2022, 1, 1⟩, 250, true,
          125, "FIFO"⟩ : CGTEvent).capital_gain * (1/2)
       else (⟨"A", ⟨2024, 1, 1⟩, 50, 15, 750, 500, ⟨2022, 1, 1⟩, 250, true,
          125, "FIFO"⟩ : CGTEvent).capital_gain) :=
  (claim_C3 "A" ⟨2024, 1, 1⟩ 80 15 "FIFO").2
    ⟨[⟨1, "A", ⟨2022, 1, 1⟩, 50, 50, 500, false⟩,
      ⟨2, "A", ⟨2023, 1, 1⟩, 50, 50, 1000, false⟩], [], []⟩
    [⟨"A", ⟨2024, 1, 1⟩, 50, 15, 750, 500, ⟨2022, 1, 1⟩, 250, true, 125,
        "FIFO"⟩,
     ⟨"A", ⟨2024, 1, 1⟩, 30, 15, 450, 600, ⟨2023, 1, 1⟩, -150, false,
        -150, "FIFO"⟩]
    ⟨"A", ⟨2024, 1, 1⟩, 50, 15, 750, 500, ⟨2022, 1, 1⟩, 250, true, 125,
        "FIFO"⟩
    (by
      simp +decide only [calculate_cgt_for_sale, eligibleParcels, matchLoop,
        updateParcel, get_tax_year, dateDiffDays, toordinal, daysBeforeYear,
        daysBeforeMonthCommon, isLeap, dateKey, List.insertionSort,
        List.orderedInsert, acqLE, acqGE, List.filter]
      norm_num)
    (by simp)

/-- Characterisation of the parcel selection: a parcel is selected iff it
is in the table, matches the stock, has remaining quantity, and (when the
rebuild path's date filter is on) was acquired on or before the sale. -/
theorem mem_eligibleParcels (ps : List TaxParcel) (stock : String)
    (df : Option Date) (m : String) (p : TaxParcel) :
    p ∈ eligibleParcels ps stock df m ↔
      p ∈ ps ∧ p.stock = stock ∧ 0 < p.remaining_quantity ∧
        (∀ d0 : Date, df = some d0 →
          dateKey p.acquisition_date ≤ dateKey d0) := by
  cases df with
  | none =>
    by_cases hm : m = "LIFO" <;>
      simp [eligibleParcels, parcelPred, hm, List.mem_insertionSort,
        List.mem_filter, and_assoc]
  | some d0 =>
    by_cases hm : m = "LIFO" <;>
      simp [eligibleParcels, parcelPred, hm, List.mem_insertionSort,
        List.mem_filter, and_assoc]

/-- When every parcel of the instrument was acquired after the sale date,
the rebuild path's selection is empty. -/
theorem eligibleParcels_nil_of_late (ps : List TaxParcel) (stock : String)
    (d : Date) (m : String)
    (hp : ∀ p ∈ ps, p.stock = stock →
      dateKey d < dateKey p.acquisition_date) :
    eligibleParcels ps stock (some d) m = [] := by
  rw [List.eq_nil_iff_forall_not_mem]
  intro p hpmem
  obtain ⟨hmem, hs, _, hdate⟩ :=
    (mem_eligibleParcels ps stock (some d) m p).mp hpmem
  exact absurd (hdate d rfl) (Nat.not_le.mpr (hp p hmem hs))

/-- Counterexample to C7 as stated: the live single-sale path applies no
acquisition-date filter, so a parcel acquired on 2025-01-01 IS drawn from
by a sale dated 2024-01-01 (the call succeeds and produces an event whose
acquisition date is later than the sale date), instead of being excluded
or reported as `NoParcelsFound`. -/
theorem claim_C7_counterexample :
    (calculate_cgt_for_sale
        ⟨[⟨1, "CBA", ⟨2025, 1, 1⟩, 10, 10, 100, false⟩], [], []⟩
        "CBA" ⟨2024, 1, 1⟩ 1 1 "FIFO").2
      = Except.ok [⟨"CBA", ⟨2024, 1, 1⟩, 1, 1, 1, 10, ⟨2025, 1, 1⟩, -9,
          false, -9, "FIFO"⟩]
    ∧ dateKey (⟨2024, 1, 1⟩ : Date) < dateKey (⟨2025, 1, 1⟩ : Date) := by
  constructor
  · simp +decide only [calculate_cgt_for_sale, eligibleParcels, matchLoop,
      updateParcel, get_tax_year, dateDiffDays, toordinal, daysBeforeYear,
      daysBeforeMonthCommon, isLeap, dateKey, List.insertionSort,
      List.orderedInsert, acqLE, acqGE, List.filter]
    norm_num
  · decide

/-- C7 amended: only the rebuild path filters by
`acquisition_date ≤ sale_date`.  There, an event never draws from a
post-sale-date parcel, and an instrument having only post-sale-date
parcels fails with the no-parcels error; the live path applies no date
filter (see the counterexample). -/
theorem claim_C7_amended (ps : List TaxParcel) (stock : String) (d : Date)
    (q : Int) (pr : ℚ) (m : String) :
    (∀ (evs : List CGTEvent) (ev : CGTEvent),
      (calculate_cgt_for_historical_sale ps stock d q pr m).2
          = Except.ok evs →
      ev ∈ evs → dateKey ev.acquisition_date ≤ dateKey d)
    ∧ ((∀ p ∈ ps, p.stock = stock →
          dateKey d < dateKey p.acquisition_date) →
        (calculate_cgt_for_historical_sale ps stock d q pr m).2
          = Except.error CGTError.noParcelsFound) := by
  constructor
  · intro evs ev hok hmem
    obtain ⟨hevs, _⟩ := historical_ok ps stock d q pr m evs hok
    rw [hevs] at hmem
    obtain ⟨p, hp, hacq, _⟩ := matchLoop_event_fields d pr m _ ps q ev hmem
    obtain ⟨_, _, _, hdate⟩ := (mem_eligibleParcels ps stock (some d) m p).mp hp
    exact hacq ▸ hdate d rfl
  · intro hp
    unfold calculate_cgt_for_historical_sale
    rw [eligibleParcels_nil_of_late ps stock d m hp]
    simp

theorem claim_C7_witness :
    dateKey
        (⟨"CBA", ⟨2024, 6, 1⟩, 100, 15, 1500, 1020, ⟨2023, 1, 1⟩, 480,
          true, 240, "FIFO"⟩ : CGTEvent).acquisition_date
      ≤ dateKey (⟨2024, 6, 1⟩ : Date) ∧
    (calculate_cgt_for_historical_sale
        [⟨1, "CBA", ⟨2025, 1, 1⟩, 10, 10, 100, false⟩]
        "CBA" ⟨2024, 1, 1⟩ 1 1 "FIFO").2
      = Except.error CGTError.noParcelsFound :=
  ⟨(claim_C7_amended [⟨1, "CBA", ⟨2023, 1, 1⟩, 100, 100, 1020, false⟩]
      "CBA" ⟨2024, 6, 1⟩ 100 15 "FIFO").1
    [⟨"CBA", ⟨2024, 6, 1⟩, 100, 15, 1500, 1020, ⟨2023, 1, 1⟩, 480, true,
      240, "FIFO"⟩]
    ⟨"CBA", ⟨2024, 6, 1⟩, 100, 15, 1500, 1020, ⟨2023, 1, 1⟩, 480, true,
      240, "FIFO"⟩
    (by
      simp +decide only [calculate_cgt_for_historical_sale, eligibleParcels,
        matchLoop, updateParcel, get_tax_year, dateDiffDays, toordinal,
        daysBeforeYear, daysBeforeMonthCommon, isLeap, dateKey,
        List.insertionSort, List.orderedInsert, acqLE, acqGE, List.filter]
      norm_num)
    (by simp),
   (claim_C7_amended [⟨1, "CBA", ⟨2025, 1, 1⟩, 10, 10, 100, false⟩]
      "CBA" ⟨2024, 1, 1⟩ 1 1 "FIFO").2 (by decide)⟩

/-- When every parcel of the instrument was acquired on or before the
sale date, the rebuild path's date filter is vacuous: both paths select
exactly the same parcels in the same order. -/
theorem eligibleParcels_df_eq (ps : List TaxParcel) (stock : String)
    (d : Date) (m : String)
    (hp : ∀ p ∈ ps, p.stock = stock →
      dateKey p.acquisition_date ≤ dateKey d) :
    eligibleParcels ps stock (some d) m
      = eligibleParcels ps stock none m := by
  have hf : ps.filter (parcelPred stock (some d))
      = ps.filter (parcelPred stock none) := by
    apply List.filter_congr
    intro p hx
    by_cases hps : p.stock = stock
    · simp [parcelPred, hps, hp p hx hps]
    · simp [parcelPred, hps]
  unfold eligibleParcels
  split <;> rw [hf]

/-- C10: under the precondition that every parcel of the sold instrument
has acquisition date ≤ sale date, the rebuild-path matcher and the
live-path matcher select the same parcels, agree on success/failure and
on the produced CGTEvent list, and on success leave the parcel table in
the same state (same remaining-quantity decrements). -/
theorem claim_C10 (st : CGTState) (stock : String) (d : Date) (q : Int)
    (pr : ℚ) (m : String)
    (hp : ∀ p ∈ st.tax_parcels, p.stock = stock →
      dateKey p.acquisition_date ≤ dateKey d) :
    eligibleParcels st.tax_parcels stock (some d) m
        = eligibleParcels st.tax_parcels stock none m
    ∧ (calculate_cgt_for_historical_sale st.tax_parcels stock d q pr m).2
        = (calculate_cgt_for_sale st stock d q pr m).2
    ∧ (∀ evs : List CGTEvent,
        (calculate_cgt_for_historical_sale st.tax_parcels stock d q pr m).2
          = Except.ok evs →
        (calculate_cgt_for_sale st stock d q pr m).1.tax_parcels
          = (calculate_cgt_for_historical_sale st.tax_parcels stock d q pr
              m).1) := by
  have he := eligibleParcels_df_eq st.tax_parcels stock d m hp
  refine ⟨he, ?_, ?_⟩
  · unfold calculate_cgt_for_historical_sale calculate_cgt_for_sale
    rw [he]
    by_cases h1 : (eligibleParcels st.tax_parcels stock none m).isEmpty
    · simp [h1]
    · by_cases h2 : 0 <
          (matchLoop d pr m (eligibleParcels st.tax_parcels stock none m)
            st.tax_parcels q).2.2
      · simp [h1, h2]
      · simp [h1, h2]
  · intro evs hok
    obtain ⟨hevs, hrem⟩ :=
      historical_ok st.tax_parcels stock d q pr m evs hok
    have h1 : ¬ (eligibleParcels st.tax_parcels stock (some d) m).isEmpty
        := by
      intro hemp
      unfold calculate_cgt_for_historical_sale at hok
      simp [hemp] at hok
    unfold calculate_cgt_for_historical_sale calculate_cgt_for_sale
    rw [he] at hrem h1 ⊢
    simp [h1, hrem]

theorem claim_C10_witness :
    eligibleParcels
        [⟨1, "A", ⟨2022, 1, 1⟩, 50, 50, 500, false⟩,
         ⟨2, "A", ⟨2023, 1, 1⟩, 50, 50, 1000, false⟩] "A"
        (some ⟨2024, 1, 1⟩) "FIFO"
      = eligibleParcels
        [⟨1, "A", ⟨2022, 1, 1⟩, 50, 50, 500, false⟩,
         ⟨2, "A", ⟨2023, 1, 1⟩, 50, 50, 1000, false⟩] "A" none "FIFO"
    ∧ (calculate_cgt_for_historical_sale
        [⟨1, "A", ⟨2022, 1, 1⟩, 50, 50, 500, false⟩,
         ⟨2, "A", ⟨2023, 1, 1⟩, 50, 50, 1000, false⟩]
        "A" ⟨2024, 1, 1⟩ 80 15 "FIFO").2
      = (calculate_cgt_for_sale
          ⟨[⟨1, "A", ⟨2022, 1, 1⟩, 50, 50, 500, false⟩,
            ⟨2, "A", ⟨2023, 1, 1⟩, 50, 50, 1000, false⟩], [], []⟩
          "A" ⟨2024, 1, 1⟩ 80 15 "FIFO").2
    ∧ (∀ evs : List CGTEvent,
        (calculate_cgt_for_historical_sale
          [⟨1, "A", ⟨2022, 1, 1⟩, 50, 50, 500, false⟩,
           ⟨2, "A", ⟨2023, 1, 1⟩, 50, 50, 1000, false⟩]
          "A" ⟨2024, 1, 1⟩ 80 15 "FIFO").2 = Except.ok evs →
        (calculate_cgt_for_sale
          ⟨[⟨1, "A", ⟨2022, 1, 1⟩, 50, 50, 500, false⟩,
            ⟨2, "A", ⟨2023, 1, 1⟩, 50, 50, 1000, false⟩], [], []⟩
          "A" ⟨2024, 1, 1⟩ 80 15 "FIFO").1.tax_parcels
          = (calculate_cgt_for_historical_sale
              [⟨1, "A", ⟨2022, 1, 1⟩, 50, 50, 500, false⟩,
               ⟨2, "A", ⟨2023, 1, 1⟩, 50, 50, 1000, false⟩]
              "A" ⟨2024, 1, 1⟩ 80 15 "FIFO").1) :=
  claim_C10
    ⟨[⟨1, "A", ⟨2022, 1, 1⟩, 50, 50, 500, false⟩,
      ⟨2, "A", ⟨2023, 1, 1⟩, 50, 50, 1000, false⟩], [], []⟩
    "A" ⟨2024, 1, 1⟩ 80 15 "FIFO" (by decide)

theorem stepEvolve_refl (p : TaxParcel) : StepEvolve p p := Or.inl rfl

theorem stepEvolve_trans {p q r : TaxParcel} (h1 : StepEvolve p q)
    (h2 : StepEvolve q r) : StepEvolve p r := by
  rcases h1 with rfl | h1
  · exact h2
  · rcases h2 with rfl | h2
    · exact Or.inr h1
    · refine Or.inr ⟨h2.1.trans h1.1, h2.2.1.trans h1.2.1,
        h2.2.2.1.trans h1.2.2.1, h2.2.2.2.1.trans h1.2.2.2.1,
        h2.2.2.2.2.1.trans h1.2.2.2.2.1, h2.2.2.2.2.2.1,
        lt_trans h2.2.2.2.2.2.2.1 h1.2.2.2.2.2.2.1,
        h2.2.2.2.2.2.2.2⟩

theorem stepEvolve_id {p q : TaxParcel} (h : StepEvolve p q) :
    q.id = p.id := by
  rcases h with rfl | h
  · rfl
  · exact h.1

theorem stepEvolve_parcelEvolves {p q : TaxParcel} (h : StepEvolve p q) :
    ParcelEvolves p q := by
  rcases h with rfl | h
  · exact ⟨rfl, rfl, rfl, rfl, rfl, le_refl _, fun _ => rfl⟩
  · refine ⟨h.1, h.2.1, h.2.2.1, h.2.2.2.1, h.2.2.2.2.1,
      le_of_lt h.2.2.2.2.2.2.1, fun h0 => absurd h.2.2.2.2.2.1 ?_⟩
    rw [h0] at h
    exact not_le.mpr h.2.2.2.2.2.2.1

theorem stepEvolve_inv {p q : TaxParcel} (h : StepEvolve p q)
    (hp : ParcelInv p) : ParcelInv q := by
  rcases h with rfl | h
  · exact hp
  · exact ⟨h.2.2.2.2.2.1,
      le_trans (le_of_lt h.2.2.2.2.2.2.1) (h.2.2.2.1 ▸ hp.2.1),
      h.2.2.2.2.2.2.2⟩

theorem parcelEvolves_refl (p : TaxParcel) : ParcelEvolves p p :=
  ⟨rfl, rfl, rfl, rfl, rfl, le_refl _, fun _ => rfl⟩

theorem parcelEvolves_trans {p q r : TaxParcel} (h1 : ParcelEvolves p q)
    (h2 : ParcelEvolves q r) : ParcelEvolves p r := by
  refine ⟨h2.1.trans h1.1, h2.2.1.trans h1.2.1, h2.2.2.1.trans h1.2.2.1,
    h2.2.2.2.1.trans h1.2.2.2.1, h2.2.2.2.2.1.trans h1.2.2.2.2.1,
    le_trans h2.2.2.2.2.2.1 h1.2.2.2.2.2.1, fun h0 => ?_⟩
  have hq := h1.2.2.2.2.2.2 h0
  have : q.remaining_quantity = 0 := by rw [hq, h0]
  rw [h2.2.2.2.2.2.2 this, hq]

/-- Composition of two `Forall₂` evolutions along a transitive relation. -/
theorem forall2_trans {α : Type} (R : α → α → Prop)
    (htrans : ∀ a b c : α, R a b → R b c → R a c) :
    ∀ {l1 l2 l3 : List α}, List.Forall₂ R l1 l2 → List.Forall₂ R l2 l3 →
      List.Forall₂ R l1 l3
  | [], [], [], _, _ => List.Forall₂.nil
  | _ :: _, _ :: _, _ :: _, List.Forall₂.cons h1 t1,
      List.Forall₂.cons h2 t2 =>
    List.Forall₂.cons (htrans _ _ _ h1 h2) (forall2_trans R htrans t1 t2)

/-- A `Forall₂` evolution preserves the id column pointwise. -/
theorem forall2_ids {l1 l2 : List TaxParcel}
    (h : List.Forall₂ StepEvolve l1 l2) :
    l2.map TaxParcel.id = l1.map TaxParcel.id := by
  induction h with
  | nil => rfl
  | cons h1 _ ih => simp [stepEvolve_id h1, ih]

/-- Right-membership extraction from a `Forall₂`. -/
theorem forall2_mem_right {α : Type} {R : α → α → Prop} :
    ∀ {l1 l2 : List α}, List.Forall₂ R l1 l2 → ∀ q ∈ l2, ∃ p ∈ l1, R p q
  | _, _, List.Forall₂.nil, q, hq => absurd hq (List.not_mem_nil q)
  | _ :: _, _ :: _, List.Forall₂.cons h1 t1, q, hq => by
    rcases List.mem_cons.mp hq with rfl | hq
    · exact ⟨_, List.mem_cons_self _ _, h1⟩
    · obtain ⟨p, hp, hr⟩ := forall2_mem_right t1 q hq
      exact ⟨p, List.mem_cons_of_mem _ hp, hr⟩

/-- One in-loop `UPDATE` is a valid evolution step of the whole table,
provided the new remaining quantity is a strict, non-negative decrease
for every row it hits. -/
theorem updateParcel_forall2 (st : List TaxParcel) (pid : Nat)
    (newRem : Int)
    (hvalid : ∀ r ∈ st, r.id = pid →
      0 ≤ newRem ∧ newRem < r.remaining_quantity) :
    List.Forall₂ StepEvolve st (updateParcel st pid newRem) := by
  unfold updateParcel
  induction st with
  | nil => exact List.Forall₂.nil
  | cons r rest ih =>
    refine List.Forall₂.cons ?_
      (ih fun r2 h2 => hvalid r2 (List.mem_cons_of_mem _ h2))
    by_cases hid : r.id = pid
    · obtain ⟨h0, hlt⟩ := hvalid r (List.mem_cons_self _ _) hid
      subst hid
      simp only [if_pos rfl]
      refine Or.inr ⟨rfl, rfl, rfl, rfl, rfl, h0, hlt, ?_⟩
      by_cases hz : newRem = 0 <;> simp [hz]
    · simp only [if_neg hid]
      exact stepEvolve_refl r

/-- Core invariant lemma for the matcher loop: given that the fetched
snapshot lists only parcels with positive remaining quantity, agrees with
the live table, and has no duplicate ids (all guaranteed by the SELECT),
the table evolves by valid per-parcel steps only. -/
theorem matchLoop_state_evolve (d : Date) (pr : ℚ) (m : String) :
    ∀ (E st : List TaxParcel) (q : Int),
      (∀ p ∈ E, 0 < p.remaining_quantity) →
      (∀ p ∈ E, ∀ r ∈ st, r.id = p.id →
        r.remaining_quantity = p.remaining_quantity) →
      (E.map TaxParcel.id).Nodup →
      List.Forall₂ StepEvolve st (matchLoop d pr m E st q).1
  | [], st, q, _, _, _ => by
    simp only [matchLoop]
    exact List.forall₂_same.mpr fun x _ => stepEvolve_refl x
  | p :: rest, st, q, hpos, hsnap, hnd => by
    by_cases hq : q ≤ 0
    · simp only [matchLoop, if_pos hq]
      exact List.forall₂_same.mpr fun x _ => stepEvolve_refl x
    · have hpPos : 0 < p.remaining_quantity :=
        hpos p (List.mem_cons_self _ _)
      rw [List.map_cons] at hnd
      have hndc := List.nodup_cons.mp hnd
      have hstep : List.Forall₂ StepEvolve st
          (updateParcel st p.id
            (p.remaining_quantity - min q p.remaining_quantity)) := by
        apply updateParcel_forall2
        intro r hr hid
        have hre := hsnap p (List.mem_cons_self _ _) r hr hid
        have h1 : min q p.remaining_quantity ≤ p.remaining_quantity :=
          min_le_right _ _
        have h2 : 0 < min q p.remaining_quantity := lt_min (by omega) hpPos
        omega
      have hsnap2 : ∀ p2 ∈ rest,
          ∀ r ∈ updateParcel st p.id
            (p.remaining_quantity - min q p.remaining_quantity),
          r.id = p2.id → r.remaining_quantity = p2.remaining_quantity := by
        intro p2 hp2 r hr hid
        unfold updateParcel at hr
        obtain ⟨r0, hr0, hfr⟩ := List.mem_map.mp hr
        by_cases h0 : r0.id = p.id
        · exfalso
          apply hndc.1
          have hridr0 : r.id = r0.id := by
            rw [← hfr]
            simp [h0]
          rw [← h0, ← hridr0, hid]
          exact List.mem_map_of_mem TaxParcel.id hp2
        · have hrr0 : r = r0 := by rw [← hfr]; simp [h0]
          rw [hrr0] at hid ⊢
          exact hsnap p2 (List.mem_cons_of_mem _ hp2) r0 hr0 hid
      have hrec := matchLoop_state_evolve d pr m rest
        (updateParcel st p.id
          (p.remaining_quantity - min q p.remaining_quantity))
        (q - min q p.remaining_quantity)
        (fun p2 hp2 => hpos p2 (List.mem_cons_of_mem _ hp2)) hsnap2 hndc.2
      simp only [matchLoop, if_neg hq]
      exact forall2_trans StepEvolve (fun _ _ _ a b => stepEvolve_trans a b)
        hstep hrec

/-- The SELECT's rows keep the table's id uniqueness. -/
theorem eligible_ids_nodup (ps : List TaxParcel) (stock : String)
    (df : Option Date) (m : String)
    (hnd : (ps.map TaxParcel.id).Nodup) :
    ((eligibleParcels ps stock df m).map TaxParcel.id).Nodup := by
  have hfil : ((ps.filter (parcelPred stock df)).map TaxParcel.id).Nodup :=
    ((List.filter_sublist ps).map TaxParcel.id).nodup hnd
  unfold eligibleParcels
  split
  · exact (((List.perm_insertionSort acqGE _).map TaxParcel.id).nodup_iff).mpr
      hfil
  · exact (((List.perm_insertionSort acqLE _).map TaxParcel.id).nodup_iff).mpr
      hfil

/-- The SELECT's rows agree with the table they were fetched from. -/
theorem eligible_snapshot (ps : List TaxParcel) (stock : String)
    (df : Option Date) (m : String)
    (hnd : (ps.map TaxParcel.id).Nodup) :
    ∀ p ∈ eligibleParcels ps stock df m, ∀ r ∈ ps, r.id = p.id →
      r.remaining_quantity = p.remaining_quantity := by
  intro p hp r hr hid
  have hpmem : p ∈ ps := ((mem_eligibleParcels ps stock df m p).mp hp).1
  rw [List.inj_on_of_nodup_map hnd hr hpmem hid]

/-- The SELECT's rows all have positive remaining quantity. -/
theorem eligible_pos (ps : List TaxParcel) (stock : String)
    (df : Option Date) (m : String) :
    ∀ p ∈ eligibleParcels ps stock df m, 0 < p.remaining_quantity :=
  fun p hp => ((mem_eligibleParcels ps stock df m p).mp hp).2.2.1

/-- One Disposal Matcher invocation (either path, success or failure)
evolves the parcel table by valid per-parcel steps. -/
theorem applyOp_evolve (st : CGTState) (op : MatcherOp)
    (hnd : (st.tax_parcels.map TaxParcel.id).Nodup) :
    List.Forall₂ StepEvolve st.tax_parcels (applyOp st op).tax_parcels := by
  cases op with
  | historical s d q pr m =>
    simp only [applyOp]
    unfold calculate_cgt_for_historical_sale
    by_cases h1 : (eligibleParcels st.tax_parcels s (some d) m).isEmpty
    · simp only [h1, if_pos]
      exact List.forall₂_same.mpr fun x _ => stepEvolve_refl x
    · have hme := matchLoop_state_evolve d pr m
        (eligibleParcels st.tax_parcels s (some d) m) st.tax_parcels q
        (eligible_pos _ _ _ _) (eligible_snapshot _ _ _ _ hnd)
        (eligible_ids_nodup _ _ _ _ hnd)
      by_cases h2 : 0 < (matchLoop d pr m
          (eligibleParcels st.tax_parcels s (some d) m) st.tax_parcels
          q).2.2
      · simpa [h1, h2] using hme
      · simpa [h1, h2] using hme
  | live s d q pr m =>
    simp only [applyOp]
    unfold calculate_cgt_for_sale
    by_cases h1 : (eligibleParcels st.tax_parcels s none m).isEmpty
    · simp only [h1, if_pos]
      exact List.forall₂_same.mpr fun x _ => stepEvolve_refl x
    · by_cases h2 : 0 < (matchLoop d pr m
          (eligibleParcels st.tax_parcels s none m) st.tax_parcels q).2.2
      · simp [h1, h2]
        exact fun x _ => stepEvolve_refl x
      · have hme := matchLoop_state_evolve d pr m
          (eligibleParcels st.tax_parcels s none m) st.tax_parcels q
          (eligible_pos _ _ _ _) (eligible_snapshot _ _ _ _ hnd)
          (eligible_ids_nodup _ _ _ _ hnd)
        simpa [h1, h2] using hme

/-- Matcher invocations keep the table's id column unchanged. -/
theorem applyOp_nodup (st : CGTState) (op : MatcherOp)
    (hnd : (st.tax_parcels.map TaxParcel.id).Nodup) :
    ((applyOp st op).tax_parcels.map TaxParcel.id).Nodup := by
  rw [forall2_ids (applyOp_evolve st op hnd)]
  exact hnd

/-- Across any sequence of matcher invocations, the per-parcel invariant
is preserved and every parcel only ever evolves by valid decrements. -/
theorem runOps_evolve :
    ∀ (ops : List MatcherOp) (st : CGTState),
      (st.tax_parcels.map TaxParcel.id).Nodup →
      (∀ p ∈ st.tax_parcels, ParcelInv p) →
      (∀ p ∈ (runOps st ops).tax_parcels, ParcelInv p) ∧
        List.Forall₂ ParcelEvolves st.tax_parcels
          (runOps st ops).tax_parcels
  | [], st, _, hinv => ⟨hinv,
      List.forall₂_same.mpr fun p _ => parcelEvolves_refl p⟩
  | op :: ops, st, hnd, hinv => by
    have hstep := applyOp_evolve st op hnd
    have hnd2 := applyOp_nodup st op hnd
    have hinv2 : ∀ p ∈ (applyOp st op).tax_parcels, ParcelInv p := by
      intro p hp
      obtain ⟨p0, hp0, hR⟩ := forall2_mem_right hstep p hp
      exact stepEvolve_inv hR (hinv p0 hp0)
    obtain ⟨ha, hb⟩ := runOps_evolve ops (applyOp st op) hnd2 hinv2
    exact ⟨ha, forall2_trans ParcelEvolves
      (fun _ _ _ a b => parcelEvolves_trans a b)
      (hstep.imp fun _ _ h => stepEvolve_parcelEvolves h) hb⟩

/-- C6: parcel quantity invariant — starting from a table with unique ids
in which every parcel satisfies `0 ≤ remaining_quantity ≤ quantity` with
the `sold` flag set exactly on exhaustion, any sequence of Disposal
Matcher invocations preserves that invariant; and parcel-by-parcel the
identity fields are untouched, `remaining_quantity` never increases, and
a parcel whose remaining quantity has reached 0 is never drawn from again
(its record stays exactly as it was). -/
theorem claim_C6 (st : CGTState) (ops : List MatcherOp)
    (hnd : (st.tax_parcels.map TaxParcel.id).Nodup)
    (hinv : ∀ p ∈ st.tax_parcels, ParcelInv p) :
    (∀ p ∈ (runOps st ops).tax_parcels, ParcelInv p)
    ∧ List.Forall₂ ParcelEvolves st.tax_parcels
        (runOps st ops).tax_parcels :=
  runOps_evolve ops st hnd hinv

theorem claim_C6_witness :
    (∀ p ∈ (runOps
        ⟨[⟨1, "A", ⟨2022, 1, 1⟩, 50, 50, 500, false⟩,
          ⟨2, "A", ⟨2023, 1, 1⟩, 50, 50, 1000, false⟩], [], []⟩
        [MatcherOp.live "A" ⟨2024, 1, 1⟩ 30 15 "FIFO",
         MatcherOp.historical "A" ⟨2024, 2, 1⟩ 30 12 "LIFO"]).tax_parcels,
      ParcelInv p)
    ∧ List.Forall₂ ParcelEvolves
        [⟨1, "A", ⟨2022, 1, 1⟩, 50, 50, 500, false⟩,
         ⟨2, "A", ⟨2023, 1, 1⟩, 50, 50, 1000, false⟩]
        (runOps
          ⟨[⟨1, "A", ⟨2022, 1, 1⟩, 50, 50, 500, false⟩,
            ⟨2, "A", ⟨2023, 1, 1⟩, 50, 50, 1000, false⟩], [], []⟩
          [MatcherOp.live "A" ⟨2024, 1, 1⟩ 30 15 "FIFO",
           MatcherOp.historical "A" ⟨2024, 2, 1⟩ 30 12 "LIFO"]).tax_parcels
    :=
  claim_C6
    ⟨[⟨1, "A", ⟨2022, 1, 1⟩, 50, 50, 500, false⟩,
      ⟨2, "A", ⟨2023, 1, 1⟩, 50, 50, 1000, false⟩], [], []⟩
    [MatcherOp.live "A" ⟨2024, 1, 1⟩ 30 15 "FIFO",
     MatcherOp.historical "A" ⟨2024, 2, 1⟩ 30 12 "LIFO"]
    (by decide) (by decide)

/-- Effect of the blanket
`UPDATE capital_losses SET remaining_loss = remaining_loss - used
WHERE remaining_loss > 0` on the total outstanding balance: it drops by
`used` for EVERY positive row, i.e. by `used × (number of positive rows)`. -/
theorem sumRemaining_blanket (used : ℚ) :
    ∀ ls : List CapitalLoss,
      sumRemainingLoss (ls.map fun l =>
        if 0 < l.remaining_loss then
          { l with remaining_loss := l.remaining_loss - used }
        else l)
      = sumRemainingLoss ls - used * (countPositiveLoss ls : ℚ)
  | [] => by simp [sumRemainingLoss, countPositiveLoss]
  | l :: rest => by
    have ih := sumRemaining_blanket used rest
    by_cases h : 0 < l.remaining_loss <;>
      simp [h, sumRemainingLoss, countPositiveLoss, List.filter_cons,
        List.map_map] at ih ⊢ <;>
      rw [ih] <;> ring

/-- The carried-forward total (a sum over rows with positive remaining
loss) is never negative. -/
theorem carriedLossTotal_nonneg (ls : List CapitalLoss) :
    0 ≤ carriedLossTotal ls := by
  unfold carriedLossTotal
  apply List.sum_nonneg
  intro x hx
  obtain ⟨l, hl, hxl⟩ := List.mem_map.mp hx
  have := List.of_mem_filter hl
  simp only [decide_eq_true_eq] at this
  rw [← hxl]
  exact le_of_lt this

/-- Counterexample to C4 as stated: with two carried-loss rows of 100
each (outstanding total 200) and a current-year net of 50, the blanket
UPDATE subtracts `used = min(200, 50) = 50` from BOTH rows, so the total
over all rows drops from 200 to 100 — a decrease of 100, not 50 — and the
summary's `carried_forward_losses` field reads 150 (pre-update total
minus `used`), not the post-update stored total 100. -/
theorem claim_C4_counterexample :
    sumRemainingLoss
        (calculate_annual_cgt
          ⟨[], [⟨"2023-2024", ⟨"X", ⟨2024, 1, 1⟩, 1, 1, 1, 1, ⟨2023, 1, 1⟩,
              50, false, 50, "FIFO"⟩⟩],
            [⟨"2021-2022", 100, 100, "Current Year"⟩,
             ⟨"2022-2023", 100, 100, "Current Year"⟩]⟩
          "2023-2024").1.capital_losses
      ≠ sumRemainingLoss
          [⟨"2021-2022", 100, 100, "Current Year"⟩,
           ⟨"2022-2023", 100, 100, "Current Year"⟩] -
          min (carriedLossTotal
              [⟨"2021-2022", 100, 100, "Current Year"⟩,
               ⟨"2022-2023", 100, 100, "Current Year"⟩])
            (currentYearNet
              ⟨[], [⟨"2023-2024", ⟨"X", ⟨2024, 1, 1⟩, 1, 1, 1, 1,
                  ⟨2023, 1, 1⟩, 50, false, 50, "FIFO"⟩⟩],
                [⟨"2021-2022", 100, 100, "Current Year"⟩,
                 ⟨"2022-2023", 100, 100, "Current Year"⟩]⟩
              "2023-2024")
    ∧ (calculate_annual_cgt
          ⟨[], [⟨"2023-2024", ⟨"X", ⟨2024, 1, 1⟩, 1, 1, 1, 1, ⟨2023, 1, 1⟩,
              50, false, 50, "FIFO"⟩⟩],
            [⟨"2021-2022", 100, 100, "Current Year"⟩,
             ⟨"2022-2023", 100, 100, "Current Year"⟩]⟩
          "2023-2024").2.carried_forward_losses
      ≠ sumRemainingLoss
          (calculate_annual_cgt
            ⟨[], [⟨"2023-2024", ⟨"X", ⟨2024, 1, 1⟩, 1, 1, 1, 1,
                ⟨2023, 1, 1⟩, 50, false, 50, "FIFO"⟩⟩],
              [⟨"2021-2022", 100, 100, "Current Year"⟩,
               ⟨"2022-2023", 100, 100, "Current Year"⟩]⟩
            "2023-2024").1.capital_losses := by
  constructor <;>
    (simp +decide only [calculate_annual_cgt, aggregateEvents, aggStep,
      carriedLossTotal, currentYearNet, sumRemainingLoss,
      countPositiveLoss, List.foldl, List.filter, List.map, List.sum]
     norm_num)

/-- C4 amended: when the year's net (after discounting and current-year
losses) is positive, `net_capital_gain = max(0, net − carried)` holds as
claimed; but the blanket UPDATE subtracts `used = min(carried, net)` from
EVERY loss row with positive remaining balance, so the outstanding total
(over all rows) decreases by `used × (number of positive rows)`, not by
`used`; and the summary's `carried_forward_losses` equals
`carried − used` (the pre-update total minus the amount applied), which
is not in general the post-update stored total. -/
theorem claim_C4_amended (st : CGTState) (ty : String)
    (h : 0 < currentYearNet st ty) :
    (calculate_annual_cgt st ty).2.net_capital_gain
        = max 0 (currentYearNet st ty - carriedLossTotal st.capital_losses)
    ∧ sumRemainingLoss (calculate_annual_cgt st ty).1.capital_losses
        = sumRemainingLoss st.capital_losses -
            min (carriedLossTotal st.capital_losses)
              (currentYearNet st ty) *
              (countPositiveLoss st.capital_losses : ℚ)
    ∧ (calculate_annual_cgt st ty).2.carried_forward_losses
        = carriedLossTotal st.capital_losses -
            min (carriedLossTotal st.capital_losses)
              (currentYearNet st ty) := by
  unfold currentYearNet at h ⊢
  simp only [calculate_annual_cgt]
  rw [if_pos h]
  refine ⟨rfl, ?_, rfl⟩
  by_cases hu : 0 < min (carriedLossTotal st.capital_losses)
      ((aggregateEvents (st.cgt_events.filter
          fun e => e.tax_year == ty)).discounted_gains -
        (aggregateEvents (st.cgt_events.filter
          fun e => e.tax_year == ty)).total_losses)
  · rw [if_pos hu]
    exact sumRemaining_blanket _ st.capital_losses
  · rw [if_neg hu]
    have h0 : min (carriedLossTotal st.capital_losses)
        ((aggregateEvents (st.cgt_events.filter
            fun e => e.tax_year == ty)).discounted_gains -
          (aggregateEvents (st.cgt_events.filter
            fun e => e.tax_year == ty)).total_losses) = 0 :=
      le_antisymm (not_lt.mp hu)
        (le_min (carriedLossTotal_nonneg _) (le_of_lt h))
    rw [h0]
    ring

theorem claim_C4_witness :
    (calculate_annual_cgt
        ⟨[], [⟨"2023-2024", ⟨"X", ⟨2024, 1, 1⟩, 1, 1, 1, 1, ⟨2023, 1, 1⟩,
            50, false, 50, "FIFO"⟩⟩],
          [⟨"2021-2022", 100, 100, "Current Year"⟩]⟩
        "2023-2024").2.net_capital_gain
      = max 0 (currentYearNet
          ⟨[], [⟨"2023-2024", ⟨"X", ⟨2024, 1, 1⟩, 1, 1, 1, 1, ⟨2023, 1, 1⟩,
              50, false, 50, "FIFO"⟩⟩],
            [⟨"2021-2022", 100, 100, "Current Year"⟩]⟩ "2023-2024" -
          carriedLossTotal [⟨"2021-2022", 100, 100, "Current Year"⟩])
    ∧ sumRemainingLoss
        (calculate_annual_cgt
          ⟨[], [⟨"2023-2024", ⟨"X", ⟨2024, 1, 1⟩, 1, 1, 1, 1, ⟨2023, 1, 1⟩,
              50, false, 50, "FIFO"⟩⟩],
            [⟨"2021-2022", 100, 100, "Current Year"⟩]⟩
          "2023-2024").1.capital_losses
      = sumRemainingLoss [⟨"2021-2022", 100, 100, "Current Year"⟩] -
          min (carriedLossTotal [⟨"2021-2022", 100, 100, "Current Year"⟩])
            (currentYearNet
              ⟨[], [⟨"2023-2024", ⟨"X", ⟨2024, 1, 1⟩, 1, 1, 1, 1,
                  ⟨2023, 1, 1⟩, 50, false, 50, "FIFO"⟩⟩],
                [⟨"2021-2022", 100, 100, "Current Year"⟩]⟩ "2023-2024") *
            (countPositiveLoss
              [⟨"2021-2022", 100, 100, "Current Year"⟩] : ℚ)
    ∧ (calculate_annual_cgt
        ⟨[], [⟨"2023-2024", ⟨"X", ⟨2024, 1, 1⟩, 1, 1, 1, 1, ⟨2023, 1, 1⟩,
            50, false, 50, "FIFO"⟩⟩],
          [⟨"2021-2022", 100, 100, "Current Year"⟩]⟩
        "2023-2024").2.carried_forward_losses
      = carriedLossTotal [⟨"2021-2022", 100, 100, "Current Year"⟩] -
          min (carriedLossTotal [⟨"2021-2022", 100, 100, "Current Year"⟩])
            (currentYearNet
              ⟨[], [⟨"2023-2024", ⟨"X", ⟨2024, 1, 1⟩, 1, 1, 1, 1,
                  ⟨2023, 1, 1⟩, 50, false, 50, "FIFO"⟩⟩],
                [⟨"2021-2022", 100, 100, "Current Year"⟩]⟩ "2023-2024") :=
  claim_C4_amended
    ⟨[], [⟨"2023-2024", ⟨"X", ⟨2024, 1, 1⟩, 1, 1, 1, 1, ⟨2023, 1, 1⟩,
        50, false, 50, "FIFO"⟩⟩],
      [⟨"2021-2022", 100, 100, "Current Year"⟩]⟩
    "2023-2024"
    (by
      simp +decide only [currentYearNet, aggregateEvents, aggStep,
        List.foldl, List.filter]
      norm_num)

/-- Counterexample to C8 as stated: for a tax year whose current-year net
is exactly 0 (here: no events at all), the aggregator returns
`net_capital_gain = 0` but records NO CapitalLoss row for the year — the
insert is guarded by `current_year_net < 0`, strict — whereas the claim
requires a row with `loss_amount = remaining_loss = |0|` for every
`current_year_net ≤ 0`. -/
theorem claim_C8_counterexample :
    currentYearNet ⟨[], [], []⟩ "2023-2024" ≤ 0
    ∧ (calculate_annual_cgt ⟨[], [], []⟩ "2023-2024").2.net_capital_gain = 0
    ∧ (calculate_annual_cgt ⟨[], [], []⟩
        "2023-2024").1.capital_losses = [] := by
  refine ⟨le_of_eq ?_, ?_, ?_⟩ <;>
    (simp +decide only [calculate_annual_cgt, currentYearNet,
      aggregateEvents, aggStep, carriedLossTotal, List.foldl, List.filter,
      List.map, List.sum]
     norm_num)

/-- C8 amended: for a tax year whose current-year net is ≤ 0, the
aggregator returns `net_capital_gain = 0`; when the net is strictly
negative it replaces any CapitalLoss row of that tax year with one whose
`loss_amount = remaining_loss = |net|` (upsert keyed by the UNIQUE tax
year); when the net is exactly 0 no row is written and the loss table is
unchanged. -/
theorem claim_C8_amended (st : CGTState) (ty : String)
    (h : currentYearNet st ty ≤ 0) :
    (calculate_annual_cgt st ty).2.net_capital_gain = 0
    ∧ (currentYearNet st ty < 0 →
        (calculate_annual_cgt st ty).1.capital_losses
          = (st.capital_losses.filter fun l => l.tax_year != ty) ++
              [⟨ty, |currentYearNet st ty|, |currentYearNet st ty|,
                "Current Year"⟩])
    ∧ (currentYearNet st ty = 0 →
        (calculate_annual_cgt st ty).1.capital_losses
          = st.capital_losses) := by
  unfold currentYearNet at h ⊢
  simp only [calculate_annual_cgt]
  rw [if_neg (not_lt.mpr h)]
  refine ⟨rfl, ?_, ?_⟩
  · intro h2
    rw [if_pos h2]
  · intro h2
    rw [if_neg (by rw [h2]; exact lt_irrefl 0)]

theorem claim_C8_witness :
    currentYearNet
        ⟨[], [⟨"2023-2024", ⟨"X", ⟨2024, 1, 1⟩, 1, 1, 1, 1, ⟨2023, 1, 1⟩,
            -100, false, -100, "FIFO"⟩⟩],
          [⟨"2021-2022", 30, 30, "Current Year"⟩,
           ⟨"2023-2024", 7, 7, "Current Year"⟩]⟩ "2023-2024" ≤ 0
    ∧ ((calculate_annual_cgt
        ⟨[], [⟨"2023-2024", ⟨"X", ⟨2024, 1, 1⟩, 1, 1, 1, 1, ⟨2023, 1, 1⟩,
            -100, false, -100, "FIFO"⟩⟩],
          [⟨"2021-2022", 30, 30, "Current Year"⟩,
           ⟨"2023-2024", 7, 7, "Current Year"⟩]⟩
        "2023-2024").2.net_capital_gain = 0
    ∧ (currentYearNet
          ⟨[], [⟨"2023-2024", ⟨"X", ⟨2024, 1, 1⟩, 1, 1, 1, 1, ⟨2023, 1, 1⟩,
              -100, false, -100, "FIFO"⟩⟩],
            [⟨"2021-2022", 30, 30, "Current Year"⟩,
             ⟨"2023-2024", 7, 7, "Current Year"⟩]⟩ "2023-2024" < 0 →
        (calculate_annual_cgt
          ⟨[], [⟨"2023-2024", ⟨"X", ⟨2024, 1, 1⟩, 1, 1, 1, 1, ⟨2023, 1, 1⟩,
              -100, false, -100, "FIFO"⟩⟩],
            [⟨"2021-2022", 30, 30, "Current Year"⟩,
             ⟨"2023-2024", 7, 7, "Current Year"⟩]⟩
          "2023-2024").1.capital_losses
          = ([⟨"2021-2022", 30, 30, "Current Year"⟩,
              ⟨"2023-2024", 7, 7, "Current Year"⟩].filter
                fun l => l.tax_year != "2023-2024") ++
              [⟨"2023-2024",
                |currentYearNet
                  ⟨[], [⟨"2023-2024", ⟨"X", ⟨2024, 1, 1⟩, 1, 1, 1, 1,
                      ⟨2023, 1, 1⟩, -100, false, -100, "FIFO"⟩⟩],
                    [⟨"2021-2022", 30, 30, "Current Year"⟩,
                     ⟨"2023-2024", 7, 7, "Current Year"⟩]⟩ "2023-2024"|,
                |currentYearNet
                  ⟨[], [⟨"2023-2024", ⟨"X", ⟨2024, 1, 1⟩, 1, 1, 1, 1,
                      ⟨2023, 1, 1⟩, -100, false, -100, "FIFO"⟩⟩],
                    [⟨"2021-2022", 30, 30, "Current Year"⟩,
                     ⟨"2023-2024", 7, 7, "Current Year"⟩]⟩ "2023-2024"|,
                "Current Year"⟩])
    ∧ (currentYearNet
          ⟨[], [⟨"2023-2024", ⟨"X", ⟨2024, 1, 1⟩, 1, 1, 1, 1, ⟨2023, 1, 1⟩,
              -100, false, -100, "FIFO"⟩⟩],
            [⟨"2021-2022", 30, 30, "Current Year"⟩,
             ⟨"2023-2024", 7, 7, "Current Year"⟩]⟩ "2023-2024" = 0 →
        (calculate_annual_cgt
          ⟨[], [⟨"2023-2024", ⟨"X", ⟨2024, 1, 1⟩, 1, 1, 1, 1, ⟨2023, 1, 1⟩,
              -100, false, -100, "FIFO"⟩⟩],
            [⟨"2021-2022", 30, 30, "Current Year"⟩,
             ⟨"2023-2024", 7, 7, "Current Year"⟩]⟩
          "2023-2024").1.capital_losses
          = [⟨"2021-2022", 30, 30, "Current Year"⟩,
             ⟨"2023-2024", 7, 7, "Current Year"⟩])) :=
  ⟨by
    simp +decide only [currentYearNet, aggregateEvents, aggStep,
      List.foldl, List.filter]
    norm_num,
   claim_C8_amended
    ⟨[], [⟨"2023-2024", ⟨"X", ⟨2024, 1, 1⟩, 1, 1, 1, 1, ⟨2023, 1, 1⟩,
        -100, false, -100, "FIFO"⟩⟩],
      [⟨"2021-2022", 30, 30, "Current Year"⟩,
       ⟨"2023-2024", 7, 7, "Current Year"⟩]⟩
    "2023-2024"
    (by
      simp +decide only [currentYearNet, aggregateEvents, aggStep,
        List.foldl, List.filter]
      norm_num)⟩
